import Mathlib

/-!
Verification of the hotkey/hotstring registration subsystem of AutoHotkey.py
(file ahk/keys.py), shallowly embedded in Lean 4.

Modelling conventions:
- Python values that flow into the engine call interface are modelled by
  the inductive type PyVal (strings, ints, bools, callables, None).
- Optional three-way parameters (unset / explicit False / explicit value)
  are modelled by Option Bool, Option Int, Option String; Python truthiness
  of such an optional is given by truthy.
- Every function that talks to the engine is embedded in the Res monad,
  which records the sequence of observable events: lock acquisition and
  release, and each engine call with its command name and arguments.
  Engine call outcomes are supplied as explicit parameters, so the
  embedding is total and executable.
-/

set_option autoImplicit false
set_option linter.unusedVariables false

/-- A Python value as passed to or returned from the engine call interface. -/
inductive PyVal
  | str (s : String)
  | int (n : Int)
  | bool (b : Bool)
  | func (id : Nat)
  | pynone
deriving DecidableEq, Repr

/-- Python truthiness of a PyVal, as used by if-tests and the builtin bool. -/
def pyTruthy : PyVal → Bool
  | .str s => s != ""
  | .int n => n != 0
  | .bool b => b
  | .func _ => true
  | .pynone => false

/-- Python truthiness of an Optional[bool]: None and False are falsy. -/
def truthy (o : Option Bool) : Bool :=
  o.getD false

/-- Models the Python expression given by func or the empty string
(used as the callback argument of the Hotkey registration call). -/
def funcOrEmpty : Option Nat → PyVal
  | some f => .func f
  | Option.none => .str ""

/-- An Option String passed as a positional engine-call argument. -/
def optStr : Option String → PyVal
  | some s => .str s
  | Option.none => .pynone

/-- An observable event of the subsystem: acquiring or releasing the
process-wide guard lock, or one call into the engine. -/
inductive Ev
  | acq
  | rel
  | disp (cmd : String) (args : List PyVal)
deriving DecidableEq, Repr

/-- Result of running an embedded operation: the returned value or the
propagated exception message, together with the emitted event trace. -/
structure Res (α : Type) where
  result : Except String α
  trace : List Ev

/-- Return a value, no events. -/
def Res.pure {α : Type} (a : α) : Res α :=
  ⟨.ok a, []⟩

/-- Sequencing: the continuation runs only when the first action succeeds;
an exception cuts the trace short, as in Python. -/
def Res.bind {α β : Type} (x : Res α) (f : α → Res β) : Res β :=
  match x.result with
  | .error e => ⟨.error e, x.trace⟩
  | .ok a => ⟨(f a).result, x.trace ++ (f a).trace⟩

/-- Raise an exception carrying the given message; no events. -/
def Res.raiseErr {α : Type} (msg : String) : Res α :=
  ⟨.error msg, []⟩

/-- One engine call: the event is recorded and the supplied outcome is
returned (ok value or raised exception). -/
def ahkCall (cmd : String) (args : List PyVal) (outcome : Except String PyVal) : Res PyVal :=
  ⟨outcome, [.disp cmd args]⟩

/-- Python try-finally: the cleanup action always runs after the body; an
exception raised by the cleanup takes precedence over the body result. -/
def pyTryFinally {α : Type} (body : Res α) (cleanup : Res Unit) : Res α :=
  ⟨match cleanup.result with
    | .error e => .error e
    | .ok _ => body.result,
   body.trace ++ cleanup.trace⟩

/-- Python with-statement over the module-wide lock: acquire, run the body,
release on every path. -/
def withLock {α : Type} (body : Res α) : Res α :=
  ⟨body.result, .acq :: body.trace ++ [.rel]⟩

/-- SendMode.INPUT from ahk/keys.py. -/
def SendMode.INPUT : String := "input"

/-- SendMode.PLAY from ahk/keys.py. -/
def SendMode.PLAY : String := "play"

/-- SendMode.EVENT from ahk/keys.py. -/
def SendMode.EVENT : String := "event"

/-- The DEFAULT helper from ahk/keys.py: drops its argument and yields None. -/
def DEFAULT {α : Type} (value : α) : Option α :=
  Option.none

/-! ### Option encoding: Hotkey.update (ahk/keys.py lines 246 to 263) -/

/-- Token list built by Hotkey.update from its four optional fields,
transcribed if-branch by if-branch from the source. -/
def hotkeyOptionTokens (buffer : Option Bool)
    (priority max_threads input_level : Option Int) : List String :=
  (if truthy buffer then ["B"]
   else if buffer.isSome then ["B0"]
   else [])
  ++ (match priority with
      | some n => ["P" ++ toString n]
      | Option.none => [])
  ++ (match max_threads with
      | some n => ["T" ++ toString n]
      | Option.none => [])
  ++ (match input_level with
      | some n => ["I" ++ toString n]
      | Option.none => [])

/-! ### Option encoding: Hotstring.update (ahk/keys.py lines 305 to 362)

Each contiguous if/elif block of the source is one definition; the full
token list is their concatenation in source order. -/

/-- End-char block of Hotstring.update. -/
def endCharOptions (wait_for_end_char omit_end_char : Option Bool) : List String :=
  if wait_for_end_char = some false then ["*"]
  else if truthy omit_end_char then ["*0", "O"]
  else
    (if truthy wait_for_end_char then ["*0"] else [])
    ++ (if omit_end_char = some false then ["O0"] else [])

/-- Inside-word block of Hotstring.update. -/
def insideWordOptions (replace_inside_word : Option Bool) : List String :=
  if truthy replace_inside_word then ["?"]
  else if replace_inside_word.isSome then ["?0"]
  else []

/-- Backspacing block of Hotstring.update. -/
def backspacingOptions (backspacing : Option Bool) : List String :=
  if truthy backspacing then ["B"]
  else if backspacing.isSome then ["B0"]
  else []

/-- Case-handling block of Hotstring.update. -/
def caseOptions (conform_to_case case_sensitive : Option Bool) : List String :=
  if truthy conform_to_case then ["C1"]
  else if truthy case_sensitive then ["C"]
  else if case_sensitive.isSome || conform_to_case.isSome then ["C0"]
  else []

/-- Key-delay block of Hotstring.update. -/
def keyDelayOptions (key_delay : Option Int) : List String :=
  match key_delay with
  | some k => ["K" ++ toString k]
  | Option.none => []

/-- Priority block of Hotstring.update. -/
def hsPriorityOptions (priority : Option Int) : List String :=
  match priority with
  | some p => ["P" ++ toString p]
  | Option.none => []

/-- Raw/text block of Hotstring.update (text wins over raw). -/
def rawTextOptions (text raw : Option Bool) : List String :=
  if truthy text then ["T"]
  else if truthy raw then ["R"]
  else if raw.isSome || text.isSome then ["R0"]
  else []

/-- Send-mode block of Hotstring.update: the mode is lowercased when
present and compared against the SendMode constants in turn. -/
def sendModeOptions (mode : Option String) : List String :=
  let m := mode.map String.toLower
  if m = some SendMode.INPUT then ["SI"]
  else if m = some SendMode.PLAY then ["SP"]
  else if m = some SendMode.EVENT then ["SE"]
  else []

/-- Reset-recognizer block of Hotstring.update. -/
def resetRecognizerOptions (reset_recognizer : Option Bool) : List String :=
  if truthy reset_recognizer then ["Z"]
  else if reset_recognizer.isSome then ["Z0"]
  else []

/-- Full token list built by Hotstring.update, in source order. -/
def hotstringOptionTokens (wait_for_end_char replace_inside_word backspacing
    case_sensitive conform_to_case : Option Bool) (key_delay : Option Int)
    (omit_end_char : Option Bool) (priority : Option Int)
    (raw text : Option Bool) (mode : Option String)
    (reset_recognizer : Option Bool) : List String :=
  endCharOptions wait_for_end_char omit_end_char
  ++ insideWordOptions replace_inside_word
  ++ backspacingOptions backspacing
  ++ caseOptions conform_to_case case_sensitive
  ++ keyDelayOptions key_delay
  ++ hsPriorityOptions priority
  ++ rawTextOptions text raw
  ++ sendModeOptions mode
  ++ resetRecognizerOptions reset_recognizer

/-! ### The spec-side encoders

These definitions follow the wording of spec section 4.1, written with the
three-way state spelled out, to be compared with the source-side encoders. -/

/-- Spec 4.1 hotkey encoding: buffer flag B if true, B0 if explicitly
false, nothing if unset; then P, T, I tokens when the field is set. -/
def specHotkeyTokens (buffer : Option Bool)
    (priority max_threads input_level : Option Int) : List String :=
  (match buffer with
   | some true => ["B"]
   | some false => ["B0"]
   | Option.none => [])
  ++ (match priority with
      | some n => ["P" ++ toString n]
      | Option.none => [])
  ++ (match max_threads with
      | some n => ["T" ++ toString n]
      | Option.none => [])
  ++ (match input_level with
      | some n => ["I" ++ toString n]
      | Option.none => [])

/-- Spec 4.1 step 1: end-char handling. -/
def specEndCharTokens (wait_for_end_char omit_end_char : Option Bool) : List String :=
  if wait_for_end_char = some false then ["*"]
  else if omit_end_char = some true then ["*0", "O"]
  else
    (if wait_for_end_char = some true then ["*0"] else [])
    ++ (if omit_end_char = some false then ["O0"] else [])

/-- Spec 4.1 three-way token: true yields the on-token, explicitly-set
false yields the off-token, unset yields nothing. -/
def specTriState (onTok offTok : String) : Option Bool → List String
  | some true => [onTok]
  | some false => [offTok]
  | Option.none => []

/-- Spec 4.1 step 4: case handling with conform-to-case taking priority. -/
def specCaseTokens (conform_to_case case_sensitive : Option Bool) : List String :=
  if conform_to_case = some true then ["C1"]
  else if case_sensitive = some true then ["C"]
  else if conform_to_case.isSome || case_sensitive.isSome then ["C0"]
  else []

/-- Spec 4.1 step 7: raw/text, mutually exclusive, text wins. -/
def specRawTextTokens (raw text : Option Bool) : List String :=
  if text = some true then ["T"]
  else if raw = some true then ["R"]
  else if raw.isSome || text.isSome then ["R0"]
  else []

/-- Spec 4.1 step 8: send mode matched case-insensitively. -/
def specSendModeTokens (mode : Option String) : List String :=
  match mode with
  | Option.none => []
  | some s =>
    if s.toLower = "input" then ["SI"]
    else if s.toLower = "play" then ["SP"]
    else if s.toLower = "event" then ["SE"]
    else []

/-- Spec 4.1 hotstring encoding: the nine steps concatenated in order. -/
def specHotstringTokens (wait_for_end_char replace_inside_word backspacing
    case_sensitive conform_to_case : Option Bool) (key_delay : Option Int)
    (omit_end_char : Option Bool) (priority : Option Int)
    (raw text : Option Bool) (mode : Option String)
    (reset_recognizer : Option Bool) : List String :=
  specEndCharTokens wait_for_end_char omit_end_char
  ++ specTriState "?" "?0" replace_inside_word
  ++ specTriState "B" "B0" backspacing
  ++ specCaseTokens conform_to_case case_sensitive
  ++ (match key_delay with
      | some k => ["K" ++ toString k]
      | Option.none => [])
  ++ (match priority with
      | some p => ["P" ++ toString p]
      | Option.none => [])
  ++ specRawTextTokens raw text
  ++ specSendModeTokens mode
  ++ specTriState "Z" "Z0" reset_recognizer

/-! ### Agreement of the source encoders with the spec encoders -/

theorem endCharOptions_eq_spec (w o : Option Bool) :
    endCharOptions w o = specEndCharTokens w o := by
  cases w <;> cases o <;>
    first
    | rfl
    | (rename_i x; cases x <;> rfl)
    | (rename_i x y; cases x <;> cases y <;> rfl)

theorem insideWordOptions_eq_spec (i : Option Bool) :
    insideWordOptions i = specTriState "?" "?0" i := by
  cases i with
  | none => rfl
  | some b => cases b <;> rfl

theorem backspacingOptions_eq_spec (b : Option Bool) :
    backspacingOptions b = specTriState "B" "B0" b := by
  cases b with
  | none => rfl
  | some v => cases v <;> rfl

theorem caseOptions_eq_spec (cc cs : Option Bool) :
    caseOptions cc cs = specCaseTokens cc cs := by
  cases cc <;> cases cs <;>
    first
    | rfl
    | (rename_i x; cases x <;> rfl)
    | (rename_i x y; cases x <;> cases y <;> rfl)

theorem rawTextOptions_eq_spec (t r : Option Bool) :
    rawTextOptions t r = specRawTextTokens r t := by
  cases t <;> cases r <;>
    first
    | rfl
    | (rename_i x; cases x <;> rfl)
    | (rename_i x y; cases x <;> cases y <;> rfl)

theorem sendModeOptions_eq_spec (m : Option String) :
    sendModeOptions m = specSendModeTokens m := by
  cases m with
  | none => rfl
  | some s =>
    simp [sendModeOptions, specSendModeTokens, SendMode.INPUT, SendMode.PLAY, SendMode.EVENT]

theorem resetRecognizerOptions_eq_spec (z : Option Bool) :
    resetRecognizerOptions z = specTriState "Z" "Z0" z := by
  cases z with
  | none => rfl
  | some v => cases v <;> rfl

theorem hotstringOptionTokens_eq_spec (w i b cs cc : Option Bool)
    (kd : Option Int) (o : Option Bool) (p : Option Int)
    (r t : Option Bool) (m : Option String) (z : Option Bool) :
    hotstringOptionTokens w i b cs cc kd o p r t m z
      = specHotstringTokens w i b cs cc kd o p r t m z := by
  simp only [hotstringOptionTokens, specHotstringTokens,
    endCharOptions_eq_spec, insideWordOptions_eq_spec, backspacingOptions_eq_spec,
    caseOptions_eq_spec, rawTextOptions_eq_spec, sendModeOptions_eq_spec,
    resetRecognizerOptions_eq_spec, keyDelayOptions, hsPriorityOptions]

theorem hotkeyOptionTokens_eq_spec (b : Option Bool) (p mt il : Option Int) :
    hotkeyOptionTokens b p mt il = specHotkeyTokens b p mt il := by
  cases b with
  | none => rfl
  | some v => cases v <;> rfl

/-! ### Contexts, triggers and their engine interactions -/

/-- A hotkey context: the default context (enter and leave do nothing) or
a predicate-guarded HotkeyContext identified by its wrapped predicate. -/
inductive Context
  | default
  | withPredicate (predicateId : Nat)
deriving DecidableEq, Repr

/-- The correlation token passed as the first argument of the Hotkey
registration call: models the Python hash of the context object. -/
def ctxHash : Context → Int
  | .default => 0
  | .withPredicate i => Int.ofNat i + 1

/-- Events of the context enter method: the default context performs no
engine call; HotkeyContext installs its predicate with the engine. -/
def Context.enterEvents : Context → List Ev
  | .default => []
  | .withPredicate i => [.disp "HotkeyContext" [.func i]]

/-- Events of the context leave method: the default context performs no
engine call; HotkeyContext pops its predicate scope. -/
def Context.exitEvents : Context → List Ev
  | .default => []
  | .withPredicate _ => [.disp "HotkeyExitContext" []]

/-- The context enter method as an embedded action (never raises). -/
def Context.enter (c : Context) : Res Unit :=
  ⟨.ok (), c.enterEvents⟩

/-- The context leave method as an embedded action (never raises). -/
def Context.exit (c : Context) : Res Unit :=
  ⟨.ok (), c.exitEvents⟩

/-- A Hotkey object: immutable key name and owning context. -/
structure Hotkey where
  key_name : String
  context : Context
deriving DecidableEq, Repr

/-- A Hotstring object: immutable trigger string and owning context. -/
structure Hotstring where
  string : String
  context : Context
deriving DecidableEq, Repr

/-- Hotkey.update from ahk/keys.py: build the option string, then under
the module-wide lock enter the context, issue the registration call, and
leave the context in a finally block. The engine outcome of the
registration call is the dispatchResult parameter. -/
def Hotkey.update (hk : Hotkey) (func : Option Nat) (buffer : Option Bool)
    (priority max_threads input_level : Option Int)
    (dispatchResult : Except String PyVal) : Res Unit :=
  let option_str := String.join (hotkeyOptionTokens buffer priority max_threads input_level)
  let context_hash := ctxHash hk.context
  withLock <|
    Res.bind hk.context.enter fun _ =>
      pyTryFinally
        (Res.bind
          (ahkCall "Hotkey"
            [.int context_hash, .str hk.key_name, funcOrEmpty func, .str option_str]
            dispatchResult)
          fun _ => Res.pure ())
        hk.context.exit

/-- Hotstring.update from ahk/keys.py: build the option string, then under
the module-wide lock enter the context, issue the registration call with
the pattern wrapped as colon options colon string, and leave the context
in a finally block. -/
def Hotstring.update (hs : Hotstring) (replacement : Option String)
    (wait_for_end_char replace_inside_word backspacing
      case_sensitive conform_to_case : Option Bool) (key_delay : Option Int)
    (omit_end_char : Option Bool) (priority : Option Int)
    (raw text : Option Bool) (mode : Option String)
    (reset_recognizer : Option Bool)
    (dispatchResult : Except String PyVal) : Res Unit :=
  let option_str := String.join (hotstringOptionTokens wait_for_end_char
    replace_inside_word backspacing case_sensitive conform_to_case key_delay
    omit_end_char priority raw text mode reset_recognizer)
  withLock <|
    Res.bind hs.context.enter fun _ =>
      pyTryFinally
        (Res.bind
          (ahkCall "Hotstring"
            [.str (":" ++ option_str ++ ":" ++ hs.string), .str (replacement.getD "")]
            dispatchResult)
          fun _ => Res.pure ())
        hs.context.exit

/-- Result of the hotkey factory: a decorator capturing the given options
(when no callback is supplied) or a constructed Hotkey. -/
inductive HotkeyFactoryOut
  | decorator (key_name : String) (buffer : Option Bool)
      (priority max_threads input_level : Option Int)
  | made (hk : Hotkey)
deriving DecidableEq, Repr

/-- Result of the hotstring factory: a decorator capturing the given
options (when no replacement is supplied) or a constructed Hotstring. -/
inductive HotstringFactoryOut
  | hsDecorator (string : String)
      (wait_for_end_char replace_inside_word backspacing
        case_sensitive conform_to_case : Option Bool) (key_delay : Option Int)
      (omit_end_char : Option Bool) (priority : Option Int)
      (raw text : Option Bool) (mode : Option String)
      (reset_recognizer : Option Bool)
  | made (hs : Hotstring)
deriving DecidableEq, Repr

/-- BaseHotkeyContext.hotkey from ahk/keys.py: reject an empty key name,
return a decorator when no callback is given, otherwise construct the
Hotkey and run its first update. Callbacks are modelled by identifiers,
so the callable check of the source is always satisfied here. -/
def Context.hotkey (ctx : Context) (key_name : String) (func : Option Nat)
    (buffer : Option Bool) (priority max_threads input_level : Option Int)
    (dispatchResult : Except String PyVal) : Res HotkeyFactoryOut :=
  if key_name = "" then Res.raiseErr "invalid key name"
  else
    match func with
    | Option.none =>
      Res.pure (.decorator key_name buffer priority max_threads input_level)
    | some f =>
      let hk : Hotkey := ⟨key_name, ctx⟩
      Res.bind (hk.update (some f) buffer priority max_threads input_level dispatchResult)
        fun _ => Res.pure (.made hk)

/-- BaseHotkeyContext.hotstring from ahk/keys.py: return a decorator when
no replacement is given, otherwise construct the Hotstring and run its
first update. The source performs no validation of the trigger string. -/
def Context.hotstring (ctx : Context) (string : String) (replacement : Option String)
    (wait_for_end_char replace_inside_word backspacing
      case_sensitive conform_to_case : Option Bool) (key_delay : Option Int)
    (omit_end_char : Option Bool) (priority : Option Int)
    (raw text : Option Bool) (mode : Option String)
    (reset_recognizer : Option Bool)
    (dispatchResult : Except String PyVal) : Res HotstringFactoryOut :=
  match replacement with
  | Option.none =>
    Res.pure (.hsDecorator string wait_for_end_char replace_inside_word backspacing
      case_sensitive conform_to_case key_delay omit_end_char priority raw text
      mode reset_recognizer)
  | some repl =>
    let hs : Hotstring := ⟨string, ctx⟩
    Res.bind (hs.update (some repl) wait_for_end_char replace_inside_word backspacing
        case_sensitive conform_to_case key_delay omit_end_char priority raw text
        mode reset_recognizer dispatchResult)
      fun _ => Res.pure (.made hs)

/-! ### Key-state queries -/

/-- The exception message raised by the underlying key-state helper when
the engine returns the indeterminate result. -/
def indeterminateMsg : String :=
  "key_name is invalid or the state of the key could not be determined"

/-- The underlying key-state helper of ahk/keys.py (source name starts
with an underscore): issue the GetKeyState call; an empty-string result
raises, any other result is coerced with bool. -/
def getKeyStateHelper (key_name : String) (mode : Option String) (resp : PyVal) : Res Bool :=
  Res.bind (ahkCall "GetKeyState" [.str key_name, optStr mode] (.ok resp)) fun result =>
    if result = .str "" then Res.raiseErr indeterminateMsg
    else Res.pure (pyTruthy result)

/-- get_key_state from ahk/keys.py. -/
def get_key_state (key_name : String) (resp : PyVal) : Res Bool :=
  getKeyStateHelper key_name Option.none resp

/-- get_physical_key_state from ahk/keys.py. -/
def get_physical_key_state (key_name : String) (resp : PyVal) : Res Bool :=
  getKeyStateHelper key_name (some "P") resp

/-- Python str.lower, modelled character by character so that it
evaluates inside the kernel. -/
def pyLower (s : String) : String :=
  ⟨s.data.map Char.toLower⟩

/-- is_key_toggled from ahk/keys.py: the lowercased key name must be one
of the toggleable keys, otherwise a ValueError is raised before any
engine call. -/
def is_key_toggled (key_name : String) (resp : PyVal) : Res Bool :=
  if pyLower key_name ∈ (["capslock", "numlock", "scrolllock", "insert", "ins"] : List String) then
    getKeyStateHelper key_name (some "T") resp
  else
    Res.raiseErr "key_name must be one of CapsLock, NumLock, ScrollLock, or Insert"

/-! ### Remapped keys -/

/-- Hotkey.enable from ahk/keys.py. -/
def Hotkey.enable (hk : Hotkey) (outcome : Except String PyVal) : Res Unit :=
  Res.bind (ahkCall "HotkeySpecial" [.str hk.key_name, .str "On"] outcome)
    fun _ => Res.pure ()

/-- Hotkey.disable from ahk/keys.py. -/
def Hotkey.disable (hk : Hotkey) (outcome : Except String PyVal) : Res Unit :=
  Res.bind (ahkCall "HotkeySpecial" [.str hk.key_name, .str "Off"] outcome)
    fun _ => Res.pure ()

/-- Hotkey.toggle from ahk/keys.py. -/
def Hotkey.toggle (hk : Hotkey) (outcome : Except String PyVal) : Res Unit :=
  Res.bind (ahkCall "HotkeySpecial" [.str hk.key_name, .str "Toggle"] outcome)
    fun _ => Res.pure ()

/-- A RemappedKey: the down-edge wildcard Hotkey and the up-edge wildcard
Hotkey produced by remap_key. -/
structure RemappedKey where
  wildcard_origin : Hotkey
  wildcard_origin_up : Hotkey
deriving DecidableEq, Repr

/-- The two member Hotkeys remap_key builds for an origin key, under the
default context, with the source wildcard patterns. The callbacks that
send the destination key are outside this model. -/
def remap_key_triggers (origin_key destination_key : String) : RemappedKey :=
  ⟨⟨"*" ++ origin_key, .default⟩, ⟨"*" ++ origin_key ++ " Up", .default⟩⟩

/-- RemappedKey.enable: down-edge member first, then up-edge member. -/
def RemappedKey.enable (rk : RemappedKey) (r1 r2 : Except String PyVal) : Res Unit :=
  Res.bind (rk.wildcard_origin.enable r1) fun _ => rk.wildcard_origin_up.enable r2

/-- RemappedKey.disable: down-edge member first, then up-edge member. -/
def RemappedKey.disable (rk : RemappedKey) (r1 r2 : Except String PyVal) : Res Unit :=
  Res.bind (rk.wildcard_origin.disable r1) fun _ => rk.wildcard_origin_up.disable r2

/-- RemappedKey.toggle: down-edge member first, then up-edge member. -/
def RemappedKey.toggle (rk : RemappedKey) (r1 r2 : Except String PyVal) : Res Unit :=
  Res.bind (rk.wildcard_origin.toggle r1) fun _ => rk.wildcard_origin_up.toggle r2

/-! ### HotkeyContext predicate wrapping -/

/-- A user predicate as accepted by HotkeyContext: either it takes no
parameters, or it takes the argument list the engine supplies. -/
inductive Predicate
  | zeroArity (f : Unit → PyVal)
  | positiveArity (f : List PyVal → PyVal)

/-- The wrapper installed by HotkeyContext around the user predicate: a
zero-parameter predicate is invoked with no arguments no matter what the
engine passes, and the result is coerced with bool in both cases. -/
def wrapPredicate : Predicate → (List PyVal → Bool)
  | .zeroArity f => fun _args => pyTruthy (f ())
  | .positiveArity f => fun args => pyTruthy (f args)

/-! ### Claim theorems -/

/-- C1: for every hotstring configuration, Hotstring.update emits the
option string of the spec 4.1 ordered-token algorithm (the source token
list agrees with the spec token list, joined with no separator), and the
btw example with every option unset registers with first argument
colon-colon-btw and second argument the replacement text. -/
theorem hotstring_update_encodes_spec_options :
    (∀ (w i b cs cc : Option Bool) (kd : Option Int) (o : Option Bool) (p : Option Int)
       (r t : Option Bool) (m : Option String) (z : Option Bool),
       String.join (hotstringOptionTokens w i b cs cc kd o p r t m z)
         = String.join (specHotstringTokens w i b cs cc kd o p r t m z)) ∧
    (((Hotstring.mk "btw" .default).update (some "by the way")
        Option.none Option.none Option.none Option.none Option.none Option.none
        Option.none Option.none Option.none Option.none Option.none Option.none
        (.ok .pynone)).trace
      = [.acq, .disp "Hotstring" [.str "::btw", .str "by the way"], .rel]) :=
  ⟨fun w i b cs cc kd o p r t m z =>
    congrArg String.join (hotstringOptionTokens_eq_spec w i b cs cc kd o p r t m z),
   by rfl⟩

/-- C2: for every hotkey configuration, Hotkey.update emits exactly the
three-way tokens of the spec in order with no separator, and the example
with buffer true, priority 5, max threads 2 and input level unset encodes
BP5T2 and registers with that option string. -/
theorem hotkey_update_encodes_three_way_options :
    (∀ (b : Option Bool) (p mt il : Option Int),
       String.join (hotkeyOptionTokens b p mt il)
         = String.join (specHotkeyTokens b p mt il)) ∧
    String.join (hotkeyOptionTokens (some true) (some 5) (some 2) Option.none) = "BP5T2" ∧
    ((Context.hotkey .default "^a" (some 0) (some true) (some 5) (some 2) Option.none
        (.ok .pynone)).trace
      = [.acq, .disp "Hotkey" [.int 0, .str "^a", .func 0, .str "BP5T2"], .rel]) :=
  ⟨fun b p mt il => congrArg String.join (hotkeyOptionTokens_eq_spec b p mt il),
   by decide, by rfl⟩

/-- C4: for every invocation of Hotkey.update or Hotstring.update, the
outcome of the registration call is the outcome of update (a failure is
propagated), and on every path the guard is acquired, the context is
entered, the registration call is issued, the context exit runs, and the
guard is released, in that order. -/
theorem update_failure_propagates_and_releases_guard :
    ∀ (hk : Hotkey) (func : Option Nat) (b : Option Bool) (p mt il : Option Int)
      (hs : Hotstring) (repl : Option String)
      (w i bs cs cc : Option Bool) (kd : Option Int) (o : Option Bool) (pr : Option Int)
      (r t : Option Bool) (m : Option String) (z : Option Bool)
      (dr : Except String PyVal),
      ((hk.update func b p mt il dr).result
         = match dr with
           | .ok _ => .ok ()
           | .error e => .error e) ∧
      ((hk.update func b p mt il dr).trace
         = [Ev.acq] ++ hk.context.enterEvents
           ++ [Ev.disp "Hotkey" [.int (ctxHash hk.context), .str hk.key_name,
                funcOrEmpty func,
                .str (String.join (hotkeyOptionTokens b p mt il))]]
           ++ hk.context.exitEvents ++ [Ev.rel]) ∧
      ((hs.update repl w i bs cs cc kd o pr r t m z dr).result
         = match dr with
           | .ok _ => .ok ()
           | .error e => .error e) ∧
      ((hs.update repl w i bs cs cc kd o pr r t m z dr).trace
         = [Ev.acq] ++ hs.context.enterEvents
           ++ [Ev.disp "Hotstring"
                [.str (":" ++ String.join (hotstringOptionTokens w i bs cs cc kd o pr r t m z)
                        ++ ":" ++ hs.string),
                 .str (repl.getD "")]]
           ++ hs.context.exitEvents ++ [Ev.rel]) := by
  intro hk func b p mt il hs repl w i bs cs cc kd o pr r t m z dr
  refine ⟨?_, ?_, ?_, ?_⟩ <;>
    cases dr <;>
      simp [Hotkey.update, Hotstring.update, withLock, Res.bind, pyTryFinally, ahkCall,
        Context.enter, Context.exit, Res.pure]

/-- C5 counterexample: the hotstring factory accepts the empty trigger
string: with a replacement supplied it raises nothing, constructs the
Hotstring object, and issues the registration call to the engine, so the
claim that every trigger factory rejects an empty pattern is false. -/
theorem hotstring_empty_pattern_not_rejected :
    ((Context.hotstring .default "" (some "x") Option.none Option.none Option.none
        Option.none Option.none Option.none Option.none Option.none Option.none
        Option.none Option.none Option.none (.ok .pynone)).result
      = .ok (.made ⟨"", .default⟩)) ∧
    ((Context.hotstring .default "" (some "x") Option.none Option.none Option.none
        Option.none Option.none Option.none Option.none Option.none Option.none
        Option.none Option.none Option.none (.ok .pynone)).trace
      = [.acq, .disp "Hotstring" [.str "::", .str "x"], .rel]) :=
  ⟨by rfl, by rfl⟩

/-- C5 amended: the hotkey factory rejects an empty key name before any
engine call and constructs nothing, while the hotstring factory performs
no empty-pattern validation: it constructs the Hotstring and issues the
registration call for the empty trigger string. -/
theorem empty_pattern_check_hotkey_only :
    ∀ (ctx : Context) (func : Option Nat) (b : Option Bool) (p mt il : Option Int)
      (dr : Except String PyVal) (repl : String)
      (w i bs cs cc : Option Bool) (kd : Option Int) (o : Option Bool) (pr : Option Int)
      (r t : Option Bool) (m : Option String) (z : Option Bool)
      (dr2 : Except String PyVal),
      (Context.hotkey ctx "" func b p mt il dr).result = .error "invalid key name" ∧
      (Context.hotkey ctx "" func b p mt il dr).trace = [] ∧
      ((Context.hotstring ctx "" (some repl) w i bs cs cc kd o pr r t m z dr2).result
        = match dr2 with
          | .ok _ => .ok (.made ⟨"", ctx⟩)
          | .error e => .error e) ∧
      ((Context.hotstring ctx "" (some repl) w i bs cs cc kd o pr r t m z dr2).trace
        = [Ev.acq] ++ ctx.enterEvents
          ++ [Ev.disp "Hotstring"
               [.str (":" ++ String.join (hotstringOptionTokens w i bs cs cc kd o pr r t m z)
                       ++ ":" ++ ""),
                .str repl]]
          ++ ctx.exitEvents ++ [Ev.rel]) := by
  intro ctx func b p mt il dr repl w i bs cs cc kd o pr r t m z dr2
  refine ⟨?_, ?_, ?_, ?_⟩ <;>
    first
    | (cases dr2 <;>
        simp [Context.hotstring, Hotstring.update, withLock, Res.bind, pyTryFinally,
          ahkCall, Context.enter, Context.exit, Res.pure, Res.raiseErr])
    | simp [Context.hotkey, Res.raiseErr]

/-- C6: each key-state query raises the indeterminate error exactly when
the engine returns the empty string, and otherwise returns the boolean
coercion of the engine result; the indeterminate case is never coerced to
a default boolean. -/
theorem indeterminate_key_state_raises :
    ∀ (key_name : String) (resp : PyVal),
      ((get_key_state key_name resp).result
        = if resp = .str "" then .error indeterminateMsg else .ok (pyTruthy resp)) ∧
      ((get_physical_key_state key_name resp).result
        = if resp = .str "" then .error indeterminateMsg else .ok (pyTruthy resp)) ∧
      ((is_key_toggled "CapsLock" resp).result
        = if resp = .str "" then .error indeterminateMsg else .ok (pyTruthy resp)) := by
  intro key_name resp
  have hmem : pyLower "CapsLock" ∈ (["capslock", "numlock", "scrolllock", "insert", "ins"] : List String) := by
    decide
  by_cases hr : resp = PyVal.str "" <;>
    refine ⟨?_, ?_, ?_⟩ <;>
      simp [get_key_state, get_physical_key_state, is_key_toggled, getKeyStateHelper,
        Res.bind, ahkCall, Res.pure, Res.raiseErr, hmem, hr]

/-- C7 counterexample: the key name ins is not one of CapsLock, NumLock,
ScrollLock, Insert (under exact or lowercased comparison), yet
is_key_toggled accepts it: it raises nothing and issues the engine call. -/
theorem is_key_toggled_ins_accepted :
    (is_key_toggled "ins" (.str "1")).result = .ok true ∧
    (is_key_toggled "ins" (.str "1")).trace
      = [.disp "GetKeyState" [.str "ins", .str "T"]] ∧
    "ins" ∉ (["CapsLock", "NumLock", "ScrollLock", "Insert"] : List String) ∧
    "ins" ∉ (["CapsLock", "NumLock", "ScrollLock", "Insert"].map pyLower) :=
  ⟨by rfl, by rfl, by decide, by decide⟩

/-- C7 amended: for every key name whose lowercased form is not one of
capslock, numlock, scrolllock, insert, or the alias ins, is_key_toggled
raises the invalid-argument error before any engine call. -/
theorem is_key_toggled_invalid_key_raises :
    ∀ (key_name : String) (resp : PyVal),
      pyLower key_name ∉ (["capslock", "numlock", "scrolllock", "insert", "ins"] : List String) →
      (is_key_toggled key_name resp).result
          = .error "key_name must be one of CapsLock, NumLock, ScrollLock, or Insert" ∧
        (is_key_toggled key_name resp).trace = [] := by
  intro key_name resp h
  constructor <;> simp [is_key_toggled, h, Res.raiseErr]

/-- C7 witness: the key name x is outside the permitted set and the
amended theorem applies to it. -/
theorem is_key_toggled_invalid_key_raises_witness :
    (pyLower "x" ∉ (["capslock", "numlock", "scrolllock", "insert", "ins"] : List String)) ∧
      ((is_key_toggled "x" (.str "1")).result
          = .error "key_name must be one of CapsLock, NumLock, ScrollLock, or Insert" ∧
        (is_key_toggled "x" (.str "1")).trace = []) :=
  ⟨by decide, is_key_toggled_invalid_key_raises "x" (.str "1") (by decide)⟩

/-- C8: every RemappedKey state change issues the engine call for the
down-edge member strictly before the call for the up-edge member (the
up-edge call is skipped only when the down-edge call raised), and the
members built by remap_key carry the wildcard origin and wildcard
origin-Up patterns. -/
theorem remapped_key_down_edge_before_up_edge :
    ∀ (rk : RemappedKey) (r1 r2 : Except String PyVal) (origin destination : String),
      ((rk.enable r1 r2).trace
        = .disp "HotkeySpecial" [.str rk.wildcard_origin.key_name, .str "On"]
          :: (match r1 with
              | .ok _ => [Ev.disp "HotkeySpecial" [.str rk.wildcard_origin_up.key_name, .str "On"]]
              | .error _ => [])) ∧
      ((rk.disable r1 r2).trace
        = .disp "HotkeySpecial" [.str rk.wildcard_origin.key_name, .str "Off"]
          :: (match r1 with
              | .ok _ => [Ev.disp "HotkeySpecial" [.str rk.wildcard_origin_up.key_name, .str "Off"]]
              | .error _ => [])) ∧
      ((rk.toggle r1 r2).trace
        = .disp "HotkeySpecial" [.str rk.wildcard_origin.key_name, .str "Toggle"]
          :: (match r1 with
              | .ok _ => [Ev.disp "HotkeySpecial" [.str rk.wildcard_origin_up.key_name, .str "Toggle"]]
              | .error _ => [])) ∧
      ((remap_key_triggers origin destination).wildcard_origin.key_name = "*" ++ origin) ∧
      ((remap_key_triggers origin destination).wildcard_origin_up.key_name
        = "*" ++ origin ++ " Up") := by
  intro rk r1 r2 origin destination
  refine ⟨?_, ?_, ?_, rfl, rfl⟩ <;> cases r1 <;> cases r2 <;> rfl

/-- C9: calling the hotkey factory with a callback left out, or the
hotstring factory with the replacement left out, returns a decorator
capturing the supplied options, performs no engine call, and constructs
no trigger object. -/
theorem factories_without_callback_return_decorator :
    ∀ (ctx : Context) (k s : String) (b : Option Bool) (p mt il : Option Int)
      (w i bs cs cc : Option Bool) (kd : Option Int) (o : Option Bool) (pr : Option Int)
      (r t : Option Bool) (m : Option String) (z : Option Bool)
      (dr : Except String PyVal),
      k ≠ "" →
      Context.hotkey ctx k Option.none b p mt il dr
          = ⟨.ok (.decorator k b p mt il), []⟩ ∧
        Context.hotstring ctx s Option.none w i bs cs cc kd o pr r t m z dr
          = ⟨.ok (.hsDecorator s w i bs cs cc kd o pr r t m z), []⟩ := by
  intro ctx k s b p mt il w i bs cs cc kd o pr r t m z dr hk
  constructor
  · simp [Context.hotkey, hk, Res.pure]
  · rfl

/-- C9 witness: the hotkey factory at key name x and the hotstring
factory at trigger btw, with every option unset and no callback. -/
theorem factories_without_callback_return_decorator_witness :
    ("x" : String) ≠ "" ∧
      (Context.hotkey .default "x" Option.none Option.none Option.none Option.none
          Option.none (.ok .pynone)
          = ⟨.ok (.decorator "x" Option.none Option.none Option.none Option.none), []⟩ ∧
        Context.hotstring .default "btw" Option.none Option.none Option.none Option.none
          Option.none Option.none Option.none Option.none Option.none Option.none
          Option.none Option.none Option.none (.ok .pynone)
          = ⟨.ok (.hsDecorator "btw" Option.none Option.none Option.none Option.none
              Option.none Option.none Option.none Option.none Option.none Option.none
              Option.none Option.none), []⟩) :=
  ⟨by decide,
   factories_without_callback_return_decorator .default "x" "btw" Option.none Option.none
     Option.none Option.none Option.none Option.none Option.none Option.none Option.none
     Option.none Option.none Option.none Option.none Option.none Option.none Option.none
     (.ok .pynone) (by decide)⟩

/-- C10: the predicate wrapper installed by HotkeyContext returns the
boolean coercion of the user predicate result; a zero-parameter predicate
is invoked with no arguments whatever argument list the engine passes. -/
theorem hotkey_context_predicate_wrapper :
    ∀ (f : Unit → PyVal) (g : List PyVal → PyVal) (args : List PyVal),
      wrapPredicate (.zeroArity f) args = pyTruthy (f ()) ∧
      wrapPredicate (.zeroArity f) args = wrapPredicate (.zeroArity f) [] ∧
      wrapPredicate (.positiveArity g) args = pyTruthy (g args) := by
  intro f g args
  exact ⟨rfl, rfl, rfl⟩

/-! ### The context guard as a two-thread interleaving model (claim C3)

Hotkey.update and Hotstring.update both execute, under the single
module-wide lock of BaseHotkeyContext, the triple context-enter,
registration call, context-exit. Here two threads each run one such
guarded update. A thread is the five-step program acquire, enter, call,
exit, release; a schedule lists which thread attempts its next step at
each moment, and an attempt to acquire a held lock blocks, changing
nothing. The engine observes the enter, call and exit events. -/

/-- An event of the guarded region as observed by the engine, tagged with
the thread that produced it. -/
inductive GEv
  | enter (t : Bool)
  | call (t : Bool)
  | exit (t : Bool)
deriving DecidableEq, Repr

/-- Global state of the two-thread system: the lock owner, the program
counter of each thread, and the observed event trace. -/
structure LockState where
  owner : Option Bool
  pcF : Nat
  pcT : Nat
  trace : List GEv
deriving DecidableEq, Repr

/-- The program counter of a thread. -/
def pcOf (s : LockState) : Bool → Nat
  | true => s.pcT
  | false => s.pcF

/-- Set the program counter of a thread. -/
def setPc (s : LockState) (t : Bool) (n : Nat) : LockState :=
  match t with
  | true => { s with pcT := n }
  | false => { s with pcF := n }

/-- One attempted step of thread t, following the body of update: acquire
the lock (blocking while it is held), emit the context enter, emit the
registration call, emit the context exit, release the lock. A blocked or
finished thread changes nothing. -/
def stepThread (s : LockState) (t : Bool) : Option LockState :=
  match pcOf s t with
  | 0 => if s.owner = Option.none
         then some { setPc s t 1 with owner := some t }
         else Option.none
  | 1 => some { setPc s t 2 with trace := s.trace ++ [.enter t] }
  | 2 => some { setPc s t 3 with trace := s.trace ++ [.call t] }
  | 3 => some { setPc s t 4 with trace := s.trace ++ [.exit t] }
  | 4 => some { setPc s t 5 with owner := Option.none }
  | _ => Option.none

/-- Run a schedule: each entry names the thread that attempts its next
step; a disabled attempt leaves the state unchanged. -/
def runSched (sched : List Bool) (s : LockState) : LockState :=
  match sched with
  | [] => s
  | t :: rest => runSched rest ((stepThread s t).getD s)

/-- Both threads at their first instruction, lock free, empty trace. -/
def initState : LockState :=
  ⟨Option.none, 0, 0, []⟩

/-- The complete guarded triple of one thread as the engine observes it. -/
def tripleOf (t : Bool) : List GEv :=
  [.enter t, .call t, .exit t]

/-- Events already emitted by a thread that is past its guarded region. -/
def doneEvents (t : Bool) (pc : Nat) : List GEv :=
  if pc = 5 then tripleOf t else []

/-- Events already emitted by the thread currently inside the guarded
region, as a function of its program counter. -/
def midEvents (t : Bool) (pc : Nat) : List GEv :=
  if pc = 2 then [.enter t]
  else if pc = 3 then [.enter t, .call t]
  else if pc = 4 then [.enter t, .call t, .exit t]
  else []

/-- Invariant: when the lock is free, both threads are before or after
their whole critical section and the trace is made of complete triples;
when a thread owns the lock, it is inside its critical section, the other
thread is entirely before or after its own, and the events of the owner form
the tail of the trace. -/
def LockInv (s : LockState) : Prop :=
  (s.owner = Option.none ∧ (s.pcF = 0 ∨ s.pcF = 5) ∧ (s.pcT = 0 ∨ s.pcT = 5) ∧
    (s.trace = doneEvents false s.pcF ++ doneEvents true s.pcT ∨
     s.trace = doneEvents true s.pcT ++ doneEvents false s.pcF)) ∨
  (∃ t : Bool, s.owner = some t ∧
    (pcOf s t = 1 ∨ pcOf s t = 2 ∨ pcOf s t = 3 ∨ pcOf s t = 4) ∧
    (pcOf s (!t) = 0 ∨ pcOf s (!t) = 5) ∧
    s.trace = doneEvents (!t) (pcOf s (!t)) ++ midEvents t (pcOf s t))

theorem stepThread_inv (s : LockState) (u : Bool) (h : LockInv s) :
    LockInv ((stepThread s u).getD s) := by
  obtain ⟨o, pF, pT, tr⟩ := s
  rcases h with ⟨ho, hF | hF, hT | hT, htr | htr⟩ |
      ⟨t, ho, hpc | hpc | hpc | hpc, hother | hother, htr⟩ <;>
    first
    | (dsimp only at ho hF hT htr; subst ho; subst hF; subst hT; subst htr;
       cases u <;> (unfold LockInv; decide))
    | (dsimp only at ho; subst ho; cases t <;> cases u <;>
        (simp only [pcOf, Bool.not_false, Bool.not_true] at hpc hother htr;
         subst hpc; subst hother; subst htr;
         unfold LockInv; decide))

theorem runSched_inv (sched : List Bool) (s : LockState) (h : LockInv s) :
    LockInv (runSched sched s) := by
  induction sched generalizing s with
  | nil => exact h
  | cons u rest ih => exact ih ((stepThread s u).getD s) (stepThread_inv s u h)

/-- C3: in every schedule of two threads each performing one guarded
registration, if both threads have completed then the observed trace is
one complete enter-call-exit triple followed by the other: the triples
are never interleaved. -/
theorem context_guard_serializes_triples (sched : List Bool)
    (hF : (runSched sched initState).pcF = 5)
    (hT : (runSched sched initState).pcT = 5) :
    (runSched sched initState).trace = tripleOf false ++ tripleOf true ∨
    (runSched sched initState).trace = tripleOf true ++ tripleOf false := by
  have h := runSched_inv sched initState (by unfold LockInv initState; decide)
  rcases h with ⟨ho, hF2, hT2, htr | htr⟩ |
      ⟨t, ho, hpc | hpc | hpc | hpc, hother, htr⟩
  · rw [hF, hT] at htr
    simp only [doneEvents, if_pos rfl] at htr
    exact Or.inl htr
  · rw [hF, hT] at htr
    simp only [doneEvents, if_pos rfl] at htr
    exact Or.inr htr
  all_goals (cases t <;> simp only [pcOf] at hpc <;> omega)

/-- C3 witness: a concrete schedule in which thread false runs its whole
guarded region and then thread true runs its own. -/
theorem context_guard_serializes_triples_witness :
    ((runSched [false, false, false, false, false, true, true, true, true, true]
        initState).pcF = 5) ∧
    ((runSched [false, false, false, false, false, true, true, true, true, true]
        initState).pcT = 5) ∧
    ((runSched [false, false, false, false, false, true, true, true, true, true]
        initState).trace = tripleOf false ++ tripleOf true ∨
     (runSched [false, false, false, false, false, true, true, true, true, true]
        initState).trace = tripleOf true ++ tripleOf false) :=
  ⟨by decide, by decide,
   context_guard_serializes_triples
     [false, false, false, false, false, true, true, true, true, true]
     (by decide) (by decide)⟩
